import Mathlib

/-!
Verification of the scoring engine of the ECE-30861 trustworthiness-scoring
repository: shallow embedding of the probe algorithms
(src/src/metrics/*.py), the shared clamp helpers
(src/src/metrics/utils/tools.py, src/phase1_probe.py) and the orchestrator
(src/src/orchestrator.py), together with theorems settling the spec claims.

Conventions of the embedding:
* Python floats are embedded as exact numbers: ℚ where the code only does
  field arithmetic and comparisons, ℝ where it applies log / rpow.
* A Python function that can raise is embedded as an Except / Option value;
  a function that is total in the source is embedded as a total function.
* Network calls are not performed; every fetch result reaching the code is a
  parameter of the embedded function, together with the measured elapsed
  milliseconds (time.time() differences are inputs, not computed).
-/

namespace Spec2Proof

/-! Section: Python value model for the clamp helpers

A value passed to phase1_probe.clamp01 / utils.tools.clamp.  float()
succeeds on numbers and on numeric strings — including the non-finite
values nan, inf and -inf and the strings that parse to them — and raises
otherwise; comparison against the ints 0 and 1 (inside the < tests and
min/max) succeeds on every float with IEEE semantics (every comparison
against nan is false) and raises TypeError on str / None. -/

/-- The value of a Python float: a finite exact value, nan, or ±inf. -/
inductive FloatVal where
  /-- A finite float with exact value q. -/
  | fin (q : ℚ)
  /-- The float nan (float("nan")); all < and > comparisons with it are false. -/
  | nan
  /-- The float +inf (neg = false) or -inf (neg = true). -/
  | inf (neg : Bool)
  deriving DecidableEq

inductive PyVal where
  /-- A Python int or finite float with exact value q. -/
  | pynum (q : ℚ)
  /-- The Python float nan value. -/
  | pynumNan
  /-- The Python float +inf (neg = false) or -inf (neg = true). -/
  | pynumInf (neg : Bool)
  /-- A Python str that float() parses to the finite value q. -/
  | pystrNum (q : ℚ)
  /-- A Python str (such as "nan") that float() parses to nan. -/
  | pystrNan
  /-- A Python str (such as "inf"/"-inf") that float() parses to ±inf. -/
  | pystrInf (neg : Bool)
  /-- A Python str that float() rejects. -/
  | pystrBad (s : String)
  /-- Python None. -/
  | pynone
  deriving DecidableEq

/-- Result of float(x): numbers pass through and numeric strings convert
(finite, nan or ±inf); anything else raises (caught by clamp01's except
branch). -/
def pyFloat : PyVal → Option FloatVal
  | .pynum q => some (.fin q)
  | .pynumNan => some .nan
  | .pynumInf b => some (.inf b)
  | .pystrNum q => some (.fin q)
  | .pystrNan => some .nan
  | .pystrInf b => some (.inf b)
  | .pystrBad _ => none
  | .pynone => none

/-- phase1_probe.clamp01 (same function appears in
tests/Additional Tests/test_clamp.py): try float(x), on failure 0.0, then
0.0 if x < 0 else 1.0 if x > 1 else x.  With IEEE comparisons, nan < 0 and
nan > 1 are both false, so nan is returned unchanged; -inf takes the < 0
branch and +inf the > 1 branch. -/
def clamp01 (v : PyVal) : FloatVal :=
  match pyFloat v with
  | none => .fin 0
  | some (.fin x) => if x < 0 then .fin 0 else if x > 1 then .fin 1 else .fin x
  | some .nan => .nan
  | some (.inf true) => .fin 0
  | some (.inf false) => .fin 1

/-- src/src/metrics/utils/tools.py clamp on a finite number:
max(0, min(n, 1)). -/
def clampQ (q : ℚ) : ℚ := max 0 (min q 1)

/-- utils.tools.clamp applied to an arbitrary value: max(0, min(n, 1)).
Python min(a, b) keeps a unless b < a, max(a, b) keeps a unless b > a; n is
compared with the ints 1 and 0, which raises TypeError (embedded as none)
unless n is a float/int.  With IEEE comparisons min(nan, 1) = nan and
max(0, nan) = 0, min(-inf, 1) = -inf and max(0, -inf) = 0, and
min(inf, 1) = 1 — so every float value, finite or not, lands in [0,1]. -/
def toolsClamp : PyVal → Option ℚ
  | .pynum q => some (clampQ q)
  | .pynumNan => some 0
  | .pynumInf true => some 0
  | .pynumInf false => some 1
  | .pystrNum _ => none
  | .pystrNan => none
  | .pystrInf _ => none
  | .pystrBad _ => none
  | .pynone => none

/-- A float value that is finite and within [0,1]. -/
def inRange01 : FloatVal → Prop
  | .fin q => 0 ≤ q ∧ q ≤ 1
  | .nan => False
  | .inf _ => False

/-! Section: Python round(x, 2) and int(x) -/

/-- Python round(x, 2), embedded over ℚ: round 100*x to the nearest integer,
ties to the even integer (Python banker's rounding), divide by 100. -/
def pyRound2 (q : ℚ) : ℚ :=
  if 100 * q - (⌊100 * q⌋ : ℚ) = 1/2 then
    (if 2 ∣ ⌊100 * q⌋ then ((⌊100 * q⌋ : ℤ) : ℚ) / 100 else ((⌊100 * q⌋ + 1 : ℤ) : ℚ) / 100)
  else ((round (100 * q) : ℤ) : ℚ) / 100

/-- Python int(x) on a number: truncation toward zero. -/
def pyTrunc (q : ℚ) : ℤ := if q < 0 then ⌈q⌉ else ⌊q⌋

theorem pyRound2_nonneg {q : ℚ} (h : 0 ≤ q) : 0 ≤ pyRound2 q := by
  unfold pyRound2
  have hf : (0 : ℤ) ≤ ⌊(100 : ℚ) * q⌋ := Int.floor_nonneg.mpr (by positivity)
  have hr : (0 : ℤ) ≤ round ((100 : ℚ) * q) := by
    rw [round_eq]
    exact Int.floor_nonneg.mpr (by linarith [Int.floor_nonneg.mpr (show (0:ℚ) ≤ 100*q by positivity)])
  split
  · split
    · positivity
    · have : (0 : ℚ) ≤ ((⌊(100:ℚ)*q⌋ : ℤ) : ℚ) := by exact_mod_cast hf
      have : (0 : ℚ) ≤ ((⌊(100:ℚ)*q⌋ + 1 : ℤ) : ℚ) := by push_cast; linarith
      positivity
  · have : (0 : ℚ) ≤ ((round ((100:ℚ)*q) : ℤ) : ℚ) := by exact_mod_cast hr
    positivity

theorem pyRound2_le_one {q : ℚ} (h : q ≤ 1) : pyRound2 q ≤ 1 := by
  unfold pyRound2
  have hm : (100 : ℚ) * q ≤ 100 := by linarith
  have hf : ⌊(100 : ℚ) * q⌋ ≤ 100 := by
    calc ⌊(100 : ℚ) * q⌋ ≤ ⌊(100 : ℚ)⌋ := Int.floor_le_floor hm
    _ = 100 := by norm_num
  split
  · rename_i htie
    have hf99 : ⌊(100 : ℚ) * q⌋ ≤ 99 := by
      by_contra hcon
      push_neg at hcon
      have h100 : ⌊(100 : ℚ) * q⌋ = 100 := le_antisymm hf hcon
      rw [h100] at htie
      have : (100 : ℚ) * q = 100 + 1/2 := by push_cast at htie; linarith
      linarith
    split
    · have : ((⌊(100:ℚ)*q⌋ : ℤ) : ℚ) ≤ 100 := by exact_mod_cast hf
      linarith
    · have : ((⌊(100:ℚ)*q⌋ + 1 : ℤ) : ℚ) ≤ 100 := by exact_mod_cast (by omega : ⌊(100:ℚ)*q⌋ + 1 ≤ 100)
      linarith
  · have hr : round ((100 : ℚ) * q) ≤ 100 := by
      rw [round_eq]
      calc ⌊(100 : ℚ) * q + 1/2⌋ ≤ ⌊(100 : ℚ) + 1/2⌋ := Int.floor_le_floor (by linarith)
      _ = 100 := by norm_num
    have : ((round ((100:ℚ)*q) : ℤ) : ℚ) ≤ 100 := by exact_mod_cast hr
    linarith

theorem pyTrunc_nonneg {q : ℚ} (h : 0 ≤ q) : 0 ≤ pyTrunc q := by
  unfold pyTrunc
  split
  · linarith
  · exact Int.floor_nonneg.mpr h

/-! Section: String helpers shared by the probes

Python str operations embedded over List Char (ASCII-faithful; the license
tables and patterns are all ASCII). -/

/-- Python whitespace class \s: space, tab, newline, CR, vertical tab, form feed. -/
def isWsChar (c : Char) : Bool :=
  c = ' ' || c = '\t' || c = '\n' || c = '\r' || c.toNat = 11 || c.toNat = 12

/-- Python str.strip(): drop leading and trailing whitespace. -/
def stripL (l : List Char) : List Char :=
  ((l.dropWhile isWsChar).reverse.dropWhile isWsChar).reverse

/-- Collapse maximal runs of spaces to one space (the effect of
re.sub(r"\s+", " ", s) after every whitespace char is mapped to a space). -/
def squeezeSpaces : List Char → List Char
  | [] => []
  | [c] => [c]
  | a :: b :: t =>
    if a = ' ' && b = ' ' then squeezeSpaces (b :: t) else a :: squeezeSpaces (b :: t)

/-- Helper for replaceL: structural recursion on a fuel bounded below by the
length of the scanned list (replacing a non-empty pattern consumes at least
one character per step, so the fuel never runs out). -/
def replaceLAux (pat rep : List Char) : ℕ → List Char → List Char
  | 0, l => l
  | _, [] => []
  | Nat.succ fuel, c :: rest =>
    if !pat.isEmpty && pat.isPrefixOf (c :: rest) then
      rep ++ replaceLAux pat rep fuel ((c :: rest).drop pat.length)
    else
      c :: replaceLAux pat rep fuel rest

/-- Python str.replace(pat, rep) with a non-empty pattern: replace
non-overlapping occurrences left to right. -/
def replaceL (pat rep l : List Char) : List Char := replaceLAux pat rep l.length l

/-- Python substring containment (pat in s) for a non-empty pattern. -/
def hasInfix (pat : List Char) : List Char → Bool
  | [] => pat.isEmpty
  | c :: t => pat.isPrefixOf (c :: t) || hasInfix pat t

/-! Section: License alias table and normalize (src/src/metrics/license_metric.py) -/

/-- LICENSE_NORMALIZATION: alias → canonical SPDX-ish key, in source order. -/
def licenseTable : List (String × String) := [
  ("mit", "mit"),
  ("apache-2.0", "apache-2.0"), ("apache 2.0", "apache-2.0"),
  ("bsd-3-clause", "bsd-3-clause"), ("bsd 3-clause", "bsd-3-clause"),
  ("bsd-2-clause", "bsd-2-clause"), ("bsd 2-clause", "bsd-2-clause"),
  ("mpl-2.0", "mpl-2.0"), ("mpl 2.0", "mpl-2.0"),
  ("lgpl-3.0", "lgpl-3.0"), ("lgpl 3.0", "lgpl-3.0"),
  ("gpl-3.0", "gpl-3.0"), ("gpl 3.0", "gpl-3.0"),
  ("agpl-3.0", "agpl-3.0"), ("agpl 3.0", "agpl-3.0"),
  ("cc-by-4.0", "cc-by-4.0"), ("cc-by 4.0", "cc-by-4.0"),
  ("cc-by-sa-4.0", "cc-by-sa-4.0"), ("cc-by-sa 4.0", "cc-by-sa-4.0"),
  ("cc-by-nc-4.0", "cc-by-nc-4.0"), ("cc-by-nc 4.0", "cc-by-nc-4.0"),
  ("cc-by-nc-sa-4.0", "cc-by-nc-sa-4.0"), ("cc-by-nc-sa 4.0", "cc-by-nc-sa-4.0"),
  ("llama2", "llama2"), ("llama 2", "llama2"), ("llama-2", "llama2"),
  ("llama3", "llama3"), ("llama 3", "llama3"), ("llama-3", "llama3"),
  ("meta-llama license", "llama2"), ("meta llama license", "llama2"),
  ("meta-llama-3 license", "llama3"),
  ("other", "other"), ("unknown", "unknown")]

/-- Dictionary membership test plus lookup in LICENSE_NORMALIZATION. -/
def lookupLicense (s : List Char) : Option (List Char) :=
  (licenseTable.find? (fun p => p.1.toList == s)).map (fun p => p.2.toList)

/-- Try to match the literal pat at the head of l, returning the rest. -/
def litP (pat : String) (l : List Char) : Option (List Char) :=
  if pat.toList.isPrefixOf l then some (l.drop pat.toList.length) else none

/-- Backtrack points of the regex piece [-\s]? at l, greedy (consume first). -/
def sepChoices (l : List Char) : List (List Char) :=
  match l with
  | c :: rest => if c = '-' || isWsChar c then [rest, l] else [l]
  | [] => [[]]

/-- Backtrack points of a regex group (?:[-\s]?w)? at l, in greedy order:
separator plus w, w alone, skip the group. -/
def groupChoices (w : String) (l : List Char) : List (List Char) :=
  ((sepChoices l).filterMap (litP w)) ++ [l]

/-- Match of the regex cc[-\s]?by(?:[-\s]?nc)?(?:[-\s]?sa)?[-\s]?4\.0 at the
head of l (greedy, with backtracking), returning the rest after the match. -/
def ccMatch (l : List Char) : Option (List Char) :=
  (litP "cc" l).bind fun l1 =>
    (sepChoices l1).findSome? fun l2 =>
      (litP "by" l2).bind fun l3 =>
        (groupChoices "nc" l3).findSome? fun l4 =>
          (groupChoices "sa" l4).findSome? fun l5 =>
            (sepChoices l5).findSome? (litP "4.0")

/-- re.search of the cc pattern: first position (left to right) where ccMatch
succeeds; returns the matched substring (group 0). -/
def ccSearchL : List Char → Option (List Char)
  | [] => none
  | l@(_ :: t) =>
    match ccMatch l with
    | some rest => some (l.take (l.length - rest.length))
    | none => ccSearchL t

/-- LicenseMetric.normalize: strip+lower, underscores to dashes, collapse
whitespace, unify "apache license"/"version", alias-table lookup (direct,
then with spaces removed and dashes respaced), SPDX-like prefix fallbacks,
and finally the cc regex scan.  Returns none when no canonical mapping is
found. -/
def normalizeL (raw : List Char) : Option (List Char) :=
  if raw.isEmpty then none else
  let s0 := stripL (raw.map Char.toLower)
  let s1 := replaceL ['_'] ['-'] s0
  let s2 := squeezeSpaces (s1.map (fun c => if isWsChar c then ' ' else c))
  let s3 := replaceL ("apache license".toList) ("apache".toList) s2
  let s := stripL (replaceL ("version".toList) [] s3)
  match lookupLicense s with
  | some v => some v
  | none =>
  match lookupLicense (stripL (replaceL ['-'] [' '] (replaceL [' '] [] s))) with
  | some v => some v
  | none =>
  if ("apache".toList.isPrefixOf s) && hasInfix ("2.0".toList) s then some ("apache-2.0".toList)
  else if ("bsd 3".toList.isPrefixOf s) then some ("bsd-3-clause".toList)
  else if ("bsd 2".toList.isPrefixOf s) then some ("bsd-2-clause".toList)
  else if ("mpl".toList.isPrefixOf s) && hasInfix ("2.0".toList) s then some ("mpl-2.0".toList)
  else if ("lgpl".toList.isPrefixOf s) && hasInfix ("3.0".toList) s then some ("lgpl-3.0".toList)
  else if ("gpl".toList.isPrefixOf s) && hasInfix ("3.0".toList) s then some ("gpl-3.0".toList)
  else if ("agpl".toList.isPrefixOf s) && hasInfix ("3.0".toList) s then some ("agpl-3.0".toList)
  else if hasInfix ("llama-3".toList) s || hasInfix ("llama 3".toList) s then some ("llama3".toList)
  else if hasInfix ("llama-2".toList) s || hasInfix ("llama 2".toList) s
          || hasInfix ("meta-llama".toList) s then some ("llama2".toList)
  else
  match ccSearchL s with
  | some m => some (replaceL ['_'] ['-'] (replaceL [' '] [] m))
  | none => none

/-- LicenseMetric.normalize on Strings. -/
def normalize (raw : String) : Option String :=
  (normalizeL raw.toList).map (fun l => String.mk l)

/-- The canonical license keys: the set of values of LICENSE_NORMALIZATION. -/
def canonicalLicenseKeys : List String :=
  ["mit", "apache-2.0", "bsd-3-clause", "bsd-2-clause", "mpl-2.0", "lgpl-3.0",
   "gpl-3.0", "agpl-3.0", "cc-by-4.0", "cc-by-sa-4.0", "cc-by-nc-4.0",
   "cc-by-nc-sa-4.0", "llama2", "llama3", "other", "unknown"]

/-! Section: README license extraction (LICENSE_REGEX and the fallback line scan) -/

/-- Match pattern a[-\s]?b at the head of l (for example apache[-\s]?2\.0). -/
def seq2 (a b : String) (l : List Char) : Option (List Char) :=
  (litP a l).bind fun l1 => (sepChoices l1).findSome? (litP b)

/-- Match pattern a[-\s]?b[-\s]?c at the head of l (the bsd clauses). -/
def seq3 (a b c : String) (l : List Char) : Option (List Char) :=
  (litP a l).bind fun l1 =>
    (sepChoices l1).findSome? fun l2 =>
      (litP b l2).bind fun l3 => (sepChoices l3).findSome? (litP c)

/-- Match meta[-\s]?llama(?:[-\s]?3)? at the head of l (greedy on the 3). -/
def metaLlamaMatch (l : List Char) : Option (List Char) :=
  (litP "meta" l).bind fun l1 =>
    (sepChoices l1).findSome? fun l2 =>
      (litP "llama" l2).map fun l3 => (groupChoices "3" l3).headD l3

/-- The alternatives of LICENSE_REGEX, in source order; each matcher returns
the rest after the match when it succeeds at the head. -/
def licenseAlternatives : List (List Char → Option (List Char)) :=
  [seq2 "apache" "2.0", litP "mit",
   seq3 "bsd" "2" "clause", seq3 "bsd" "3" "clause",
   seq2 "mpl" "2.0", seq2 "lgpl" "3.0", seq2 "gpl" "3.0", seq2 "agpl" "3.0",
   ccMatch, seq2 "llama" "2", seq2 "llama" "3", metaLlamaMatch,
   litP "other", litP "unknown"]

/-- Backtrack points of the regex piece [:\s]* at l, in greedy order
(maximal run consumed first). -/
def starSeps : List Char → List (List Char)
  | [] => [[]]
  | c :: rest =>
    if c = ':' || isWsChar c then starSeps rest ++ [c :: rest] else [c :: rest]

/-- Backtrack points of the optional prefix (?:license[:\s]*)? of
LICENSE_REGEX, greedy: with the prefix (and its separator run) first. -/
def licPrefixChoices (l : List Char) : List (List Char) :=
  match litP "license" l with
  | some l1 => starSeps l1 ++ [l]
  | none => [l]

/-- Match LICENSE_REGEX at the head of l; on success returns (group 1, rest),
where group 1 is the license token without the optional license: prefix. -/
def matchLicenseAt (l : List Char) : Option (List Char × List Char) :=
  (licPrefixChoices l).findSome? fun l1 =>
    (licenseAlternatives.findSome? fun m => m l1).map fun rest =>
      (l1.take (l1.length - rest.length), rest)

/-- LICENSE_REGEX.finditer over the (lowered) README: at each match, try
normalize on group 1; the first normalized hit wins (scanning resumes after
a match whose normalization fails). -/
def finditerNorm : ℕ → List Char → Option (List Char)
  | 0, _ => none
  | _, [] => none
  | Nat.succ fuel, l =>
    match l with
    | [] => none
    | _ :: t =>
      match matchLicenseAt l with
      | some (g1, rest) =>
        match normalizeL g1 with
        | some v => some v
        | none =>
          if rest.length < l.length then finditerNorm fuel rest else finditerNorm fuel t
      | none => finditerNorm fuel t

/-- re.search of license[:\s]+([^\n\r]+) over the (lowered) README: first
position where "license" is followed by at least one separator and a
non-empty run of non-newline characters; returns the captured group. -/
def lineSearch : ℕ → List Char → Option (List Char)
  | 0, _ => none
  | _, [] => none
  | Nat.succ fuel, l =>
    match l with
    | [] => none
    | _ :: t =>
      match litP "license" l with
      | some l1 =>
        match ((starSeps l1).filter (fun o => o.length < l1.length)).findSome?
            (fun l2 =>
              let cap := l2.takeWhile (fun c => !(c = '\n' || c = '\r'))
              if cap.isEmpty then none else some cap) with
        | some g => some g
        | none => lineSearch fuel t
      | none => lineSearch fuel t

/-- Metadata of a HF model as seen by LicenseMetric (fields of the model_info
response it reads: the license attribute when it is a str, the tag list, and
cardData.license when it is a str). -/
structure HfModelInfo where
  license : Option String
  tags : List String
  cardLicense : Option String

/-- Python t.split(":", 1)[1]: the part of t after the first colon. -/
def afterColon (t : List Char) : List Char :=
  ((t.dropWhile (fun c => c ≠ ':')).drop 1)

/-- The tag loop of LicenseMetric.extract_from_metadata: first tag of the
form license:<id> whose id normalizes. -/
def tagLicense : List String → Option (List Char)
  | [] => none
  | t :: rest =>
    if ("license:".toList.isPrefixOf (t.toList.map Char.toLower)) then
      match normalizeL (afterColon t.toList) with
      | some n => some n
      | none => tagLicense rest
    else tagLicense rest

/-- LicenseMetric.extract_from_metadata: explicit license field, then
license:<id> tags, then cardData.license. -/
def extractFromMetadata (info : HfModelInfo) : Option (List Char) :=
  match info.license.bind (fun lic => normalizeL lic.toList) with
  | some n => some n
  | none =>
    match tagLicense info.tags with
    | some n => some n
    | none => info.cardLicense.bind (fun raw => normalizeL raw.toList)

/-- LicenseMetric.extract_from_readme: LICENSE_REGEX matches first, then the
license:-line fallback (whose captured text is normalized; failure of that
single normalization yields none). -/
def extractFromReadme (readme : String) : Option (List Char) :=
  if readme.toList.isEmpty then none else
  let chars := readme.toList.map Char.toLower
  match finditerNorm (chars.length + 1) chars with
  | some v => some v
  | none => (lineSearch (chars.length + 1) chars).bind normalizeL

/-- Errors a probe can raise past its boundary. -/
inductive PyError where
  /-- TypeError (None where a str/tuple is required). -/
  | typeError
  /-- ValueError (invalid URL, failed tuple unpacking). -/
  | valueError
  /-- An uncaught network/HTTP exception from a fetch call. -/
  | fetchError
  deriving DecidableEq

/-- LicenseMetric.compute.  url is the urlparse path-segment view of the
model URL (none embeds Python None, on which urlparse raises TypeError).
fetch is the outcome of the uncaught HfApi().model_info call; readme is the
text returned by get_readme_text (which catches its own errors and returns
""); elapsedMs is the measured latency.  Returns (score, latency_ms) or the
exception that propagates. -/
def licenseCompute (url : Option (List String)) (allowed : List String)
    (fetch : Option HfModelInfo) (readme : String) (elapsedMs : ℤ) :
    Except PyError (ℚ × ℤ) :=
  match url with
  | none => .error .typeError
  | some segs =>
    if segs.isEmpty then .error .valueError
    else
      match fetch with
      | none => .error .fetchError
      | some info =>
        let norm :=
          match extractFromMetadata info with
          | some n => some n
          | none => extractFromReadme readme
        match norm with
        | none => .ok (0, elapsedMs)
        | some n =>
          if allowed.any (fun a => a.toList == n) then .ok (1, elapsedMs)
          else .ok (0, elapsedMs)

/-! Section: Bus-factor probe (src/src/metrics/bus_metric.py) -/

/-- Base-2 logarithm, math.log2. -/
noncomputable def log2 (x : ℝ) : ℝ := Real.log x / Real.log 2

/-- The entropy accumulated by BusMetric.compute over a contributor
histogram given as the list of per-contributor contribution counts:
-Σ pᵢ·log2(pᵢ) with pᵢ = cᵢ / C and C the total count. -/
noncomputable def busEntropy (counts : List ℕ) : ℝ :=
  -((counts.map (fun c =>
      ((c : ℝ) / (counts.sum : ℝ)) * log2 ((c : ℝ) / (counts.sum : ℝ)))).sum)

/-- The score of BusMetric.compute as a function of the contributor
histogram: 0.0 when N ≤ 1 or C = 0, otherwise entropy normalized by the
maximum entropy log2(N) (with the source's max_entropy > 0 guard). -/
noncomputable def busScore (counts : List ℕ) : ℝ :=
  if counts.length ≤ 1 ∨ counts.sum = 0 then 0
  else if 0 < log2 (counts.length : ℝ) then busEntropy counts / log2 (counts.length : ℝ)
  else 0

/-- Outcome of the commit-list fetch in get_hf_contributor_stats: the
per-contributor contribution counts (every entry of the histogram built by
the loop is ≥ 1, but the embedding does not need that), or a caught
exception. -/
inductive BusFetch where
  | fail
  | ok (counts : List ℕ)

/-- BusMetric.compute.  url none embeds Python None (returns (0, 0) before
any timing or network access); a URL whose path has fewer than two segments
makes get_hf_contributor_stats return (0, 0, empty) without network access;
a failed fetch is caught and yields the empty histogram.  The Bool records
whether the network was touched.  Every branch of the source returns, so the
embedding is total. -/
noncomputable def busCompute (url : Option (List String)) (fetch : BusFetch)
    (elapsedMs : ℤ) : Except PyError (ℝ × ℤ × Bool) :=
  match url with
  | none => .ok (0, 0, false)
  | some segs =>
    if segs.length < 2 then .ok (0, elapsedMs, false)
    else
      match fetch with
      | .fail => .ok (0, elapsedMs, true)
      | .ok counts => .ok (busScore counts, elapsedMs, true)

/-! Section: Ramp-up probe (src/src/metrics/ramp_metric.py) -/

/-- Clamp over ℝ (utils.tools.clamp applied to a float). -/
noncomputable def clampR (x : ℝ) : ℝ := max 0 (min x 1)

/-- The ramp score formula clamp((math.log(downloads) - 5) / 10). -/
noncomputable def rampScoreOf (d : ℤ) : ℝ := clampR ((Real.log (d : ℝ) - 5) / 10)

/-- Outcome of get_downloads_and_latency's requests.get: the downloads field
of the JSON (data.get("downloads", 0)) with the measured latency, an HTTP
error status (raised by raise_for_status, caught, yielding (None, None)), or
a non-HTTP exception such as a connection error, which no except clause
matches. -/
inductive RampFetch where
  | ok (downloads : ℤ) (latencyMs : ℚ)
  | httpError
  | connError

/-- Result of RampMetric.compute: a (score, latency) pair, the bare None the
source returns when downloads is None or ≤ 0, or an exception escaping the
probe. -/
inductive RampOutcome where
  | ok (score : ℝ) (latencyMs : ℚ)
  | retNone
  | raised (e : PyError)

/-- RampMetric.compute.  url none embeds Python None: get_downloads_and_latency
calls urlparse(url) outside any try block, so compute raises TypeError.  A
non-HTTP fetch exception propagates (the except clause only catches
requests.HTTPError).  downloads None or ≤ 0 returns the bare None (not a
(value, latency) tuple).  Otherwise the clamped log score is returned with
the float latency. -/
noncomputable def rampCompute (url : Option String) (fetch : RampFetch) : RampOutcome :=
  match url with
  | none => .raised .typeError
  | some _ =>
    match fetch with
    | .connError => .raised .fetchError
    | .httpError => .retNone
    | .ok d lat => if d ≤ 0 then .retNone else .ok (rampScoreOf d) lat

/-! Section: Size-compatibility probe (src/src/metrics/size_metric.py) -/

/-- The numeric precision tiers. -/
inductive Prec where
  | fp32
  | fp16
  | int8
  | bit4
  deriving DecidableEq

/-- PRECISION_BYTES: memory per parameter in bytes. -/
def precBytes : Prec → ℚ
  | .fp32 => 4
  | .fp16 => 2
  | .int8 => 1
  | .bit4 => 1/2

/-- The preference order of _pick_best_precision: GPU profiles prefer higher
precision, CPU profiles prefer quantized tiers. -/
def precOrder (gpu : Bool) : List Prec :=
  if gpu then [.fp16, .int8, .bit4] else [.int8, .bit4, .fp32]

/-- _memory_with_overhead: params × bytes-per-param × overhead factor. -/
noncomputable def memWithOverhead (params : ℝ) (prec : Prec) (ov : ℚ) : ℝ :=
  params * (precBytes prec : ℝ) * (ov : ℝ)

/-- _pick_best_precision: the first precision in the preference order whose
memory requirement fits the cap, none if no tier fits. -/
noncomputable def pickBestPrecision (params : ℝ) (memCap : ℚ) (gpu : Bool) (ov : ℚ) :
    Option Prec :=
  (precOrder gpu).find? (fun prec => decide (memWithOverhead params prec ov ≤ (memCap : ℝ)))

/-- _base_score_for_precision: fp16 1.0, int8 0.85, 4bit 0.70, fp32 0.60,
infeasible 0.0. -/
def baseScore : Option Prec → ℚ
  | none => 0
  | some .fp16 => 1
  | some .int8 => 17/20
  | some .bit4 => 7/10
  | some .fp32 => 3/5

/-- _throughput_penalty: 1 / (1 + (params / max(1, comfort))^1.2). -/
noncomputable def throughputPenalty (params : ℝ) (comfort : ℚ) : ℝ :=
  1 / (1 + (params / max 1 (comfort : ℝ)) ^ (1.2 : ℝ))

/-- A device profile of size_metric.DEFAULT_PROFILES. -/
structure DeviceProfile where
  memBytes : ℚ
  supportsGpu : Bool
  comfortParams : ℚ

/-- The per-device score computed by SizeMetric.compute's loop body:
clamp(base score of the selected precision × throughput penalty). -/
noncomputable def deviceScore (params : ℝ) (prof : DeviceProfile) (ov : ℚ) : ℝ :=
  clampR ((baseScore (pickBestPrecision params prof.memBytes prof.supportsGpu ov) : ℝ) *
    throughputPenalty params prof.comfortParams)

/-- DEFAULT_PROFILES raspberry_pi. -/
def raspberryPi : DeviceProfile := ⟨6000000000, false, 50000000⟩

/-- DEFAULT_PROFILES jetson_nano. -/
def jetsonNano : DeviceProfile := ⟨3000000000, true, 100000000⟩

/-- DEFAULT_PROFILES desktop_pc. -/
def desktopPc : DeviceProfile := ⟨12000000000, true, 2000000000⟩

/-- DEFAULT_PROFILES aws_server. -/
def awsServer : DeviceProfile := ⟨16000000000, true, 3000000000⟩

/-- The overhead factor SizeMetric is constructed with (1.3). -/
def overheadDefault : ℚ := 13/10

/-! Section: Dataset-quality probe (src/src/metrics/dataset_quality_metric.py) -/

/-- Repository type recognized by _parse_hf_url. -/
inductive RepoType where
  | dataset
  | space
  | model
  deriving DecidableEq

/-- _parse_hf_url on the non-empty path segments of the URL: first segment
datasets/dataset → dataset, spaces/space → space, otherwise model; an empty
path raises ValueError. -/
def parseHfUrl (segs : List String) : Except PyError (String × RepoType) :=
  match segs with
  | [] => .error .valueError
  | head :: rest =>
    let h := String.mk (head.toList.map Char.toLower)
    if h = "datasets" || h = "dataset" then
      .ok (String.intercalate "/" (rest.take 2), .dataset)
    else if h = "spaces" || h = "space" then
      .ok (String.intercalate "/" (rest.take 2), .space)
    else
      match rest with
      | [] => .ok (head, .model)
      | r1 :: _ => .ok (head ++ "/" ++ r1, .model)

/-- The features entry of a dataset card (dict/list/str/other shapes). -/
inductive PyFeatures where
  | fabsent
  | fdict (n : ℕ)
  | flist (n : ℕ)
  | fstr (s : String)
  | fother
  deriving DecidableEq

/-- Python truthiness of the features value. -/
def featFalsy : PyFeatures → Bool
  | .fabsent => true
  | .fdict n => n = 0
  | .flist n => n = 0
  | .fstr s => s.isEmpty
  | .fother => false

/-- DataQualityMetric._score_features. -/
def scoreFeatures (f : PyFeatures) : ℚ :=
  if featFalsy f then 1/5
  else
    let num : ℕ :=
      match f with
      | .fdict n => n
      | .flist n => n
      | .fstr s => max (s.toList.count ',' + 1) (s.toList.count '\n')
      | _ => 0
    if num = 0 then 0 else if num < 3 then 1/2 else 1

/-- DataQualityMetric._score_description (length thresholds of the stripped
description; empty → 0.2). -/
def scoreDescription (d : String) : ℚ :=
  if d.isEmpty then 1/5
  else
    let len := (stripL d.toList).length
    if len < 50 then 3/10 else if len < 200 then 3/5 else 1

/-- DataQualityMetric._score_contributors as a function of the number of
sibling files (empty/None → 0.2, one → 0.5, several → 1.0; the except
branch that sets n = 0 for unsized values also lands on 0.2). -/
def scoreContributors (siblings : ℕ) : ℚ :=
  if siblings = 0 then 1/5 else if siblings = 1 then 1/2 else 1

/-- The license entry of a dataset card (str/list/dict/other shapes). -/
inductive PyLicense where
  | labsent
  | lstr (s : String)
  | llist (n : ℕ)
  | ldict (n : ℕ)
  | lother
  deriving DecidableEq

/-- Python truthiness of the license value. -/
def licFalsy : PyLicense → Bool
  | .labsent => true
  | .lstr s => s.isEmpty
  | .llist n => n = 0
  | .ldict n => n = 0
  | .lother => false

/-- DataQualityMetric._score_license. -/
def scoreLicense (lv : PyLicense) : ℚ :=
  if licFalsy lv then 1/5
  else
    match lv with
    | .lstr _ => 1
    | .llist n => if 0 < n then 1 else 1/5
    | .ldict n => if 0 < n then 1 else 1/5
    | _ => 3/5

/-- The card_data.get("license") or card_data.get("licenses") expression:
the first operand unless it is falsy. -/
def pyOrLicense (a b : PyLicense) : PyLicense := if licFalsy a then b else a

/-- cardData of a dataset metadata response as read by the probe. -/
structure DataCardData where
  description : String
  features : PyFeatures
  license : PyLicense
  licenses : PyLicense

/-- A dataset metadata response: optional cardData (none also embeds a
present-but-falsy cardData) and the number of sibling files. -/
structure DatasetMeta where
  cardData : Option DataCardData
  siblings : ℕ

/-- The dataset-URL argument as the probe sees it: Python-falsy (None or "")
or a URL with its non-empty path segments. -/
inductive HfUrlArg where
  | falsy
  | withPath (segs : List String)

/-- DataQualityMetric.compute.  fetch is the result of
_get_dataset_metadata (which catches its own errors and returns None, also
the embedding of an empty/falsy response); elapsedMs the measured latency.
Returns (score, latency_ms, network-touched flag) or the ValueError raised
by _parse_hf_url on a URL without path segments. -/
def dataQualityCompute (url : HfUrlArg) (fetch : Option DatasetMeta)
    (elapsedMs : ℤ) : Except PyError (ℚ × ℤ × Bool) :=
  match url with
  | .falsy => .ok (0, 0, false)
  | .withPath segs =>
    match parseHfUrl segs with
    | .error e => .error e
    | .ok (_, ty) =>
      if ty ≠ RepoType.dataset then .ok (0, elapsedMs, false)
      else
        match fetch with
        | none => .ok (0, elapsedMs, true)
        | some data =>
          let descS := scoreDescription (match data.cardData with
            | none => "" | some c => c.description)
          let featS := scoreFeatures (match data.cardData with
            | none => .fabsent | some c => c.features)
          let contribS := scoreContributors data.siblings
          let licS := scoreLicense (match data.cardData with
            | none => .labsent | some c => pyOrLicense c.license c.licenses)
          let overall := (descS + featS + contribS + licS) / 4
          let bonus : ℚ := if data.cardData.isSome then 1/10 else 0
          .ok (clampQ (overall + bonus), elapsedMs, true)

/-! Section: Orchestrator (src/src/orchestrator.py run_all_metrics) -/

/-- The nine nonlocal (score, latency) slots of run_all_metrics.  Each slot
is some (score, latency) when the worker's tuple assignment succeeded and
none when the worker raised (ThreadPoolExecutor futures are discarded, so an
exception in a worker only leaves its slot as the initial None).  Latencies
are the Python numbers the probes return (floats for ramp). -/
structure ProbeOutcomes where
  bus : Option (ℚ × ℚ)
  code : Option (ℚ × ℚ)
  data : Option (ℚ × ℚ)
  license : Option (ℚ × ℤ)
  ramp : Option (ℚ × ℚ)
  size : Option (ℚ × ℚ × ℚ × ℚ × ℚ)
  perf : Option (ℚ × ℚ)
  repro : Option (ℚ × ℚ)
  review : Option (ℚ × ℚ)

/-- The worker run_size executes
size_rpi, size_jetson, size_pc, size_aws, size_latency = SizeMetric().compute(...).
SizeMetric.compute returns a dict with the four device keys (and no
latency), so the tuple assignment iterates the dict's 4 keys against 5
targets and always raises ValueError; the five nonlocal size variables are
never assigned, whatever compute returns or raises. -/
def runSizeWrapper (computeResult : Option (ℚ × ℚ × ℚ × ℚ)) :
    Option (ℚ × ℚ × ℚ × ℚ × ℚ) :=
  match computeResult with
  | _ => none

/-- The record literal returned by run_all_metrics (the first, all-zero
size_score/size_score_latency entries of the dict literal are overwritten by
the later duplicate keys and are dead). -/
structure CompositeRecord where
  net_score : ℚ
  net_score_latency : ℤ
  ramp_up_time : ℚ
  ramp_up_time_latency : ℤ
  bus_factor : ℚ
  bus_factor_latency : ℤ
  performance_claims : ℚ
  performance_claims_latency : ℤ
  license : ℚ
  license_latency : ℤ
  size_raspberry_pi : ℚ
  size_jetson_nano : ℚ
  size_desktop_pc : ℚ
  size_aws_server : ℚ
  size_score_latency : ℤ
  dataset_and_code_score : ℚ
  dataset_and_code_score_latency : ℤ
  dataset_quality : ℚ
  dataset_quality_latency : ℤ
  code_quality : ℚ
  code_quality_latency : ℤ
  reproducibility : ℚ
  reproducibility_latency : ℤ
  reviewedness : ℚ
  reviewedness_latency : ℤ
  deriving DecidableEq

/-- run_all_metrics after the thread join: any slot still None makes the
arithmetic or round() call on it raise TypeError past the orchestrator's
boundary; with every slot filled it builds the composite record, whose
net_score is the fixed mean of the six metrics bus, code_quality,
dataset_quality, ramp_up, license and performance_claims.  netElapsedMs is
the orchestrator's own (end - start) * 1000. -/
def runAllMetrics (o : ProbeOutcomes) (netElapsedMs : ℚ) :
    Except PyError CompositeRecord :=
  match o.bus, o.code, o.data, o.license, o.ramp, o.size, o.perf, o.repro, o.review with
  | some (bs, bl), some (cs, cl), some (ds, dl), some (ls, ll), some (rs, rl),
    some (z1, z2, z3, z4, zl), some (ps, pl), some (es, el), some (vs, vl) =>
    .ok {
      net_score := pyRound2 ((bs + cs + ds + rs + ls + ps) / 6)
      net_score_latency := pyTrunc netElapsedMs
      ramp_up_time := pyRound2 rs
      ramp_up_time_latency := pyTrunc rl
      bus_factor := pyRound2 bs
      bus_factor_latency := pyTrunc bl
      performance_claims := pyRound2 ps
      performance_claims_latency := pyTrunc pl
      license := pyRound2 ls
      license_latency := ll
      size_raspberry_pi := pyRound2 z1
      size_jetson_nano := pyRound2 z2
      size_desktop_pc := pyRound2 z3
      size_aws_server := pyRound2 z4
      size_score_latency := pyTrunc zl
      dataset_and_code_score := pyRound2 ((cs + ds) / 2)
      dataset_and_code_score_latency := pyTrunc ((cl + dl) / 2)
      dataset_quality := pyRound2 ds
      dataset_quality_latency := pyTrunc dl
      code_quality := pyRound2 cs
      code_quality_latency := pyTrunc cl
      reproducibility := pyRound2 es
      reproducibility_latency := pyTrunc el
      reviewedness := pyRound2 vs
      reviewedness_latency := pyTrunc vl }
  | _, _, _, _, _, _, _, _, _ => .error .typeError

/-- True when every probe slot holds a (score, latency) pair. -/
def allSlotsFilled (o : ProbeOutcomes) : Bool :=
  o.bus.isSome && o.code.isSome && o.data.isSome && o.license.isSome &&
  o.ramp.isSome && o.size.isSome && o.perf.isSome && o.repro.isSome && o.review.isSome

/-- Probe status of the spec's ProbeResult. -/
inductive MetricStatus where
  | ok
  | notApplicable
  | failed
  deriving DecidableEq

/-- Net-score aggregation transcribed from the spec's words, for comparison
with the source's aggregation: the arithmetic mean of the applicable scalar
metrics (NOT_APPLICABLE excluded from the mean, not treated as zero), 0.0
when all are not applicable. -/
def specNetScore (metrics : List (ℚ × MetricStatus)) : ℚ :=
  let app := metrics.filter fun m =>
    match m.2 with
    | MetricStatus.notApplicable => false
    | _ => true
  if app.length = 0 then 0 else (app.map Prod.fst).sum / app.length

/-! Section: Theorems -/

theorem clampQ_nonneg (q : ℚ) : 0 ≤ clampQ q := le_max_left 0 _

theorem clampQ_le_one (q : ℚ) : clampQ q ≤ 1 :=
  max_le (by norm_num) (min_le_right q 1)

/-- C8 (corrected).  Neither clamping helper satisfies the claim in full.
clamp01 of phase1_probe never raises, maps every non-float-convertible
input (non-numeric strings, None) to 0.0, and maps every float()-convertible
input except nan into [0,1] — but nan passes through both clamp branches
unchanged and is returned outside [0,1].  The clamp helper of utils/tools
shared by the probes maps every float value — finite, infinite or nan —
into [0,1], but raises TypeError on non-numeric input instead of returning
0.0. -/
theorem C8_clamp_amended :
    (∀ v : PyVal, pyFloat v ≠ some FloatVal.nan → inRange01 (clamp01 v)) ∧
    (∀ v : PyVal, pyFloat v = some FloatVal.nan → clamp01 v = FloatVal.nan) ∧
    (∀ s : String, clamp01 (.pystrBad s) = .fin 0) ∧ clamp01 .pynone = .fin 0 ∧
    (∀ q : ℚ, toolsClamp (.pynum q) = some (clampQ q) ∧ 0 ≤ clampQ q ∧ clampQ q ≤ 1) ∧
    (∀ (v : PyVal) (q : ℚ), toolsClamp v = some q → 0 ≤ q ∧ q ≤ 1) ∧
    (∀ s : String, toolsClamp (.pystrBad s) = none) ∧ toolsClamp .pynone = none := by
  refine ⟨fun v hv => ?_, fun v hv => ?_, fun s => rfl, rfl,
    fun q => ⟨rfl, clampQ_nonneg q, clampQ_le_one q⟩, fun v q hv => ?_, fun s => rfl, rfl⟩
  · cases v with
    | pynum q =>
      simp only [clamp01, pyFloat]
      split_ifs with h1 h2
      · exact ⟨le_refl 0, zero_le_one⟩
      · exact ⟨zero_le_one, le_refl 1⟩
      · exact ⟨by linarith, by linarith⟩
    | pynumNan => exact absurd rfl hv
    | pynumInf b =>
      cases b with
      | true => exact ⟨le_refl 0, zero_le_one⟩
      | false => exact ⟨zero_le_one, le_refl 1⟩
    | pystrNum q =>
      simp only [clamp01, pyFloat]
      split_ifs with h1 h2
      · exact ⟨le_refl 0, zero_le_one⟩
      · exact ⟨zero_le_one, le_refl 1⟩
      · exact ⟨by linarith, by linarith⟩
    | pystrNan => exact absurd rfl hv
    | pystrInf b =>
      cases b with
      | true => exact ⟨le_refl 0, zero_le_one⟩
      | false => exact ⟨zero_le_one, le_refl 1⟩
    | pystrBad s => exact ⟨le_refl 0, zero_le_one⟩
    | pynone => exact ⟨le_refl 0, zero_le_one⟩
  · cases v with
    | pynumNan => rfl
    | pystrNan => rfl
    | pynum q => exact absurd hv (by simp [pyFloat])
    | pynumInf b => exact absurd hv (by simp [pyFloat])
    | pystrNum q => exact absurd hv (by simp [pyFloat])
    | pystrInf b => exact absurd hv (by simp [pyFloat])
    | pystrBad s => exact absurd hv (by simp [pyFloat])
    | pynone => exact absurd hv (by simp [pyFloat])
  · cases v with
    | pynum q' =>
      have hq : clampQ q' = q := by
        simpa only [toolsClamp, Option.some.injEq] using hv
      rw [← hq]
      exact ⟨clampQ_nonneg q', clampQ_le_one q'⟩
    | pynumNan =>
      have hq : (0 : ℚ) = q := by
        simpa only [toolsClamp, Option.some.injEq] using hv
      rw [← hq]
      exact ⟨le_refl 0, zero_le_one⟩
    | pynumInf b =>
      cases b with
      | true =>
        have hq : (0 : ℚ) = q := by
          simpa only [toolsClamp, Option.some.injEq] using hv
        rw [← hq]
        exact ⟨le_refl 0, zero_le_one⟩
      | false =>
        have hq : (1 : ℚ) = q := by
          simpa only [toolsClamp, Option.some.injEq] using hv
        rw [← hq]
        exact ⟨zero_le_one, le_refl 1⟩
    | pystrNum q' => exact absurd hv (by simp [toolsClamp])
    | pystrNan => exact absurd hv (by simp [toolsClamp])
    | pystrInf b => exact absurd hv (by simp [toolsClamp])
    | pystrBad s => exact absurd hv (by simp [toolsClamp])
    | pynone => exact absurd hv (by simp [toolsClamp])

/-- C8 witness: the in-range branch at a finite float, the nan
pass-through, and the tools.clamp bound at the nan input it maps to 0. -/
theorem C8_witness :
    inRange01 (clamp01 (.pynum 1)) ∧ clamp01 .pynumNan = FloatVal.nan ∧
    (0 ≤ (0 : ℚ) ∧ (0 : ℚ) ≤ 1) :=
  ⟨C8_clamp_amended.1 (.pynum 1) (by simp [pyFloat]),
   C8_clamp_amended.2.1 .pynumNan rfl,
   C8_clamp_amended.2.2.2.2.2.1 .pynumNan 0 rfl⟩

/-- C8 counterexample.  clamp01(float("nan")) returns nan — neither clamp
branch fires, so the result is outside [0,1] — and the probes' clamp helper
(utils/tools.clamp) raises TypeError on the non-numeric string "NaN-ish"
(min("NaN-ish", 1) compares str with int) instead of returning 0.0. -/
theorem C8_counterexample :
    clamp01 .pynumNan = FloatVal.nan ∧ ¬inRange01 FloatVal.nan ∧
    toolsClamp (.pystrBad "NaN-ish") = none :=
  ⟨rfl, fun h => h, rfl⟩

/-- C9 (confirmed).  LicenseMetric.normalize maps every canonical license
key to itself, hence normalize(normalize(x)) = normalize(x) on canonical
input. -/
theorem C9_normalize_idempotent :
    ∀ x ∈ canonicalLicenseKeys,
      normalize x = some x ∧ (normalize x).bind normalize = normalize x := by
  decide

/-- C9 witness at the canonical key mit. -/
theorem C9_witness :
    "mit" ∈ canonicalLicenseKeys ∧
      (normalize "mit" = some "mit" ∧
        (normalize "mit").bind normalize = normalize "mit") :=
  ⟨by decide, C9_normalize_idempotent "mit" (by decide)⟩

/-- True when the first path segment classifies the URL as a dataset. -/
def isDatasetHead (h : String) : Bool :=
  let hl := String.mk (h.toList.map Char.toLower)
  hl = "datasets" || hl = "dataset"

/-- C10 (corrected).  A falsy dataset URL (None or "") yields (0.0, 0) and
a URL whose first path segment is not datasets/dataset (models, spaces)
yields score 0.0 with the measured latency, in both cases without touching
the network.  (A URL with an empty path instead raises — see the
counterexample.) -/
theorem C10_nondataset_amended :
    (∀ fetch e, dataQualityCompute .falsy fetch e = .ok (0, 0, false)) ∧
    (∀ (h : String) (rest : List String) fetch e, isDatasetHead h = false →
      dataQualityCompute (.withPath (h :: rest)) fetch e = .ok (0, e, false)) := by
  refine ⟨fun fetch e => rfl, fun h rest fetch e hnd => ?_⟩
  simp only [isDatasetHead] at hnd
  simp only [dataQualityCompute, parseHfUrl]
  rw [if_neg (by simpa using hnd)]
  by_cases hsp : (String.mk (h.toList.map Char.toLower) = "spaces" ||
      String.mk (h.toList.map Char.toLower) = "space") = true
  · rw [if_pos hsp]
    simp
  · rw [if_neg hsp]
    cases rest <;> simp

/-- C10 witness: a model URL (first segment an org name) is scored 0.0
without any fetch. -/
theorem C10_witness :
    dataQualityCompute (.withPath ["openai", "whisper-tiny"]) none 25 = .ok (0, 25, false) :=
  C10_nondataset_amended.2 "openai" ["whisper-tiny"] none 25 (by decide)

/-- C10 counterexample.  The URL https://huggingface.co (no path segments)
does not refer to a Hugging Face dataset, yet compute does not return
(0.0, latency): _parse_hf_url raises ValueError. -/
theorem C10_counterexample :
    dataQualityCompute (.withPath []) none 0 = .error .valueError := rfl

/-- The net_score field of an orchestrator result, when a record was built. -/
def netScoreOf (e : Except PyError CompositeRecord) : Option ℚ :=
  e.toOption.map CompositeRecord.net_score

/-- The reviewedness field of an orchestrator result, when a record was built. -/
def reviewednessOf (e : Except PyError CompositeRecord) : Option ℚ :=
  e.toOption.map CompositeRecord.reviewedness

/-- C1 (code bug).  run_all_metrics does not shield its boundary: the
run_size worker unpacks the 4-entry dict returned by SizeMetric.compute
into 5 names and therefore always raises ValueError, leaving its slot None
(first conjunct); and any slot left None makes run_all_metrics itself raise
TypeError when it does arithmetic/round() on None, instead of returning the
all-default record (second conjunct). -/
theorem C1_orchestrator_raises :
    (∀ r, runSizeWrapper r = none) ∧
    (∀ (o : ProbeOutcomes) (netE : ℚ), o.size = none →
      runAllMetrics o netE = .error .typeError) := by
  refine ⟨fun r => rfl, fun o netE h => ?_⟩
  obtain ⟨b, c, d, l, r, s, p, e, v⟩ := o
  simp only at h
  subst h
  cases b <;> cases c <;> cases d <;> cases l <;> cases r <;> cases p <;>
    cases e <;> cases v <;> rfl

/-- C1 witness: with every other probe returning (0.0, 0) and the size slot
unfilled (as run_size always leaves it), the orchestrator raises. -/
theorem C1_witness :
    runAllMetrics
      { bus := some (0, 0), code := some (0, 0), data := some (0, 0),
        license := some (0, 0), ramp := some (0, 0), size := runSizeWrapper (some (1, 1, 1, 1)),
        perf := some (0, 0), repro := some (0, 0), review := some (0, 0) } 0
      = .error .typeError :=
  C1_orchestrator_raises.2 _ 0 rfl

/-- C2 counterexample.  Probe outcomes in which the dataset-quality metric
is not applicable (absent dataset URL: the probe returned 0.0) and every
other net metric scored 1.0: the spec's aggregation (NOT_APPLICABLE
excluded from the mean) gives 1.0, the source's fixed six-way mean gives
round(5/6, 2) = 0.83. -/
theorem C2_counterexample :
    netScoreOf (runAllMetrics
      { bus := some (1, 10), code := some (1, 10), data := some (0, 0),
        license := some (1, 10), ramp := some (1, 10), size := some (0, 0, 0, 0, 0),
        perf := some (1, 10), repro := some (0, 0), review := some (0, 0) } 0)
      = some (83/100) ∧
    specNetScore [(1, .ok), (1, .ok), (0, .notApplicable), (1, .ok), (1, .ok), (1, .ok)] = 1 ∧
    (83 : ℚ)/100 ≠ 1 := by
  refine ⟨?_, ?_, by norm_num⟩
  · have h : netScoreOf (runAllMetrics
        { bus := some (1, 10), code := some (1, 10), data := some (0, 0),
          license := some (1, 10), ramp := some (1, 10), size := some (0, 0, 0, 0, 0),
          perf := some (1, 10), repro := some (0, 0), review := some (0, 0) } 0)
        = some (pyRound2 ((1 + 1 + 0 + 1 + 1 + 1) / 6)) := rfl
    rw [h]
    norm_num [pyRound2, round_eq]
  · simp only [specNetScore, List.filter]
    norm_num

/-- C2 (corrected).  net_score is the round-to-2 fixed arithmetic mean of
exactly the six metrics bus_factor, code_quality, dataset_quality,
ramp_up, license and performance_claims, whatever their applicability
(a not-applicable metric's 0.0 stays in the mean; size, reproducibility and
reviewedness never enter it); there is no status-based exclusion. -/
theorem C2_net_score_formula :
    ∀ (bs cs ds ls rs ps z1 z2 z3 z4 : ℚ) (bl cl dl rl pl zl es el vs vl netE : ℚ)
      (ll : ℤ),
      netScoreOf (runAllMetrics
        { bus := some (bs, bl), code := some (cs, cl), data := some (ds, dl),
          license := some (ls, ll), ramp := some (rs, rl), size := some (z1, z2, z3, z4, zl),
          perf := some (ps, pl), repro := some (es, el), review := some (vs, vl) } netE)
        = some (pyRound2 ((bs + cs + ds + rs + ls + ps) / 6)) := by
  intro bs cs ds ls rs ps z1 z2 z3 z4 bl cl dl rl pl zl es el vs vl netE ll
  rfl

/-- C3 (code bug).  Evaluation of the probes at the claim's boundary cases:
the bus probe conforms (absent URL → (0.0, 0) without network access, a
caught fetch error → (0.0, elapsed)); but the ramp probe returns the bare
None instead of a (value, latency, status) result when downloads ≤ 0,
raises TypeError on an absent URL, and propagates non-HTTP fetch errors;
and the license probe propagates an absent URL and every fetch error. -/
theorem C3_probe_boundary_eval :
    (∀ fetch e, busCompute none fetch e = .ok (0, 0, false)) ∧
    (∀ (segs : List String) (e : ℤ), 2 ≤ segs.length →
      busCompute (some segs) .fail e = .ok (0, e, true)) ∧
    rampCompute (some "https://huggingface.co/org/model") (.ok 0 50) = .retNone ∧
    rampCompute none (.ok 1000 50) = .raised .typeError ∧
    (∀ u, rampCompute (some u) .connError = .raised .fetchError) ∧
    (∀ allowed readme e, licenseCompute none allowed none readme e = .error .typeError) ∧
    (∀ (segs : List String) allowed readme e, segs.isEmpty = false →
      licenseCompute (some segs) allowed none readme e = .error .fetchError) := by
  refine ⟨fun fetch e => rfl, fun segs e hlen => ?_, by simp [rampCompute], rfl,
    fun u => rfl, fun allowed readme e => rfl, fun segs allowed readme e hne => ?_⟩
  · simp only [busCompute]
    rw [if_neg (by omega)]
  · simp only [licenseCompute]
    rw [if_neg (by simp [hne])]

/-- C3 witness: the hypothesis-bearing conjuncts at concrete inputs — a
two-segment model URL with a caught bus fetch failure, and the same URL with
an uncaught license fetch failure. -/
theorem C3_witness :
    busCompute (some ["org", "model"]) .fail 5 = .ok (0, 5, true) ∧
    licenseCompute (some ["org", "model"]) [] none "" 7 = .error .fetchError :=
  ⟨C3_probe_boundary_eval.2.1 ["org", "model"] 5 (by decide),
   C3_probe_boundary_eval.2.2.2.2.2.2 ["org", "model"] [] "" 7 (by decide)⟩

theorem pyRound2_neg_one : pyRound2 (-1) = -1 := by
  have h1 : ((100 : ℚ) * -1) = -100 := by norm_num
  have h2 : ⌊(-100 : ℚ)⌋ = -100 := by norm_num
  simp only [pyRound2, h1, h2]
  rw [if_neg (by push_cast; norm_num), round_eq]
  norm_num

/-- All fields of the composite record lie in their documented ranges,
except that reviewedness is allowed its -1 sentinel. -/
def recordWellBounded (rec : CompositeRecord) : Prop :=
  (0 ≤ rec.net_score ∧ rec.net_score ≤ 1) ∧
  (0 ≤ rec.ramp_up_time ∧ rec.ramp_up_time ≤ 1) ∧
  (0 ≤ rec.bus_factor ∧ rec.bus_factor ≤ 1) ∧
  (0 ≤ rec.performance_claims ∧ rec.performance_claims ≤ 1) ∧
  (0 ≤ rec.license ∧ rec.license ≤ 1) ∧
  (0 ≤ rec.size_raspberry_pi ∧ rec.size_raspberry_pi ≤ 1) ∧
  (0 ≤ rec.size_jetson_nano ∧ rec.size_jetson_nano ≤ 1) ∧
  (0 ≤ rec.size_desktop_pc ∧ rec.size_desktop_pc ≤ 1) ∧
  (0 ≤ rec.size_aws_server ∧ rec.size_aws_server ≤ 1) ∧
  (0 ≤ rec.dataset_and_code_score ∧ rec.dataset_and_code_score ≤ 1) ∧
  (0 ≤ rec.dataset_quality ∧ rec.dataset_quality ≤ 1) ∧
  (0 ≤ rec.code_quality ∧ rec.code_quality ≤ 1) ∧
  (0 ≤ rec.reproducibility ∧ rec.reproducibility ≤ 1) ∧
  (rec.reviewedness = -1 ∨ (0 ≤ rec.reviewedness ∧ rec.reviewedness ≤ 1)) ∧
  (0 ≤ rec.net_score_latency ∧ 0 ≤ rec.ramp_up_time_latency ∧
   0 ≤ rec.bus_factor_latency ∧ 0 ≤ rec.performance_claims_latency ∧
   0 ≤ rec.license_latency ∧ 0 ≤ rec.size_score_latency ∧
   0 ≤ rec.dataset_and_code_score_latency ∧ 0 ≤ rec.dataset_quality_latency ∧
   0 ≤ rec.code_quality_latency ∧ 0 ≤ rec.reproducibility_latency ∧
   0 ≤ rec.reviewedness_latency)

/-- C5 (corrected).  When every probe returns a score in its documented
range — scalars in [0,1], reviewedness in [0,1] or its -1 sentinel — and a
non-negative latency, the record run_all_metrics builds has every field
present (it is a fixed structure) with every scalar in [0,1] and every
latency a non-negative integer, except that the reviewedness field carries
the sentinel -1 when the probe reported it. -/
theorem C5_record_bounds :
    ∀ (bs cs ds ls rs ps es vs z1 z2 z3 z4 bl cl dl rl pl el vl zl netE : ℚ) (ll : ℤ),
      ((0 ≤ bs ∧ bs ≤ 1) ∧ (0 ≤ cs ∧ cs ≤ 1) ∧ (0 ≤ ds ∧ ds ≤ 1) ∧ (0 ≤ ls ∧ ls ≤ 1) ∧
       (0 ≤ rs ∧ rs ≤ 1) ∧ (0 ≤ ps ∧ ps ≤ 1) ∧ (0 ≤ es ∧ es ≤ 1) ∧
       (vs = -1 ∨ (0 ≤ vs ∧ vs ≤ 1)) ∧
       (0 ≤ z1 ∧ z1 ≤ 1) ∧ (0 ≤ z2 ∧ z2 ≤ 1) ∧ (0 ≤ z3 ∧ z3 ≤ 1) ∧ (0 ≤ z4 ∧ z4 ≤ 1) ∧
       0 ≤ bl ∧ 0 ≤ cl ∧ 0 ≤ dl ∧ 0 ≤ rl ∧ 0 ≤ pl ∧ 0 ≤ el ∧ 0 ≤ vl ∧ 0 ≤ zl ∧
       0 ≤ netE ∧ 0 ≤ ll) →
      ∀ rec, runAllMetrics
          { bus := some (bs, bl), code := some (cs, cl), data := some (ds, dl),
            license := some (ls, ll), ramp := some (rs, rl),
            size := some (z1, z2, z3, z4, zl), perf := some (ps, pl),
            repro := some (es, el), review := some (vs, vl) } netE = .ok rec →
        recordWellBounded rec := by
  intro bs cs ds ls rs ps es vs z1 z2 z3 z4 bl cl dl rl pl el vl zl netE ll hyp rec hrec
  obtain ⟨⟨hbs0, hbs1⟩, ⟨hcs0, hcs1⟩, ⟨hds0, hds1⟩, ⟨hls0, hls1⟩, ⟨hrs0, hrs1⟩,
    ⟨hps0, hps1⟩, ⟨hes0, hes1⟩, hvs, ⟨hz10, hz11⟩, ⟨hz20, hz21⟩, ⟨hz30, hz31⟩,
    ⟨hz40, hz41⟩, hbl, hcl, hdl, hrl, hpl, hel, hvl, hzl, hnetE, hll⟩ := hyp
  rw [show runAllMetrics
      { bus := some (bs, bl), code := some (cs, cl), data := some (ds, dl),
        license := some (ls, ll), ramp := some (rs, rl),
        size := some (z1, z2, z3, z4, zl), perf := some (ps, pl),
        repro := some (es, el), review := some (vs, vl) } netE
      = Except.ok
      { net_score := pyRound2 ((bs + cs + ds + rs + ls + ps) / 6)
        net_score_latency := pyTrunc netE
        ramp_up_time := pyRound2 rs
        ramp_up_time_latency := pyTrunc rl
        bus_factor := pyRound2 bs
        bus_factor_latency := pyTrunc bl
        performance_claims := pyRound2 ps
        performance_claims_latency := pyTrunc pl
        license := pyRound2 ls
        license_latency := ll
        size_raspberry_pi := pyRound2 z1
        size_jetson_nano := pyRound2 z2
        size_desktop_pc := pyRound2 z3
        size_aws_server := pyRound2 z4
        size_score_latency := pyTrunc zl
        dataset_and_code_score := pyRound2 ((cs + ds) / 2)
        dataset_and_code_score_latency := pyTrunc ((cl + dl) / 2)
        dataset_quality := pyRound2 ds
        dataset_quality_latency := pyTrunc dl
        code_quality := pyRound2 cs
        code_quality_latency := pyTrunc cl
        reproducibility := pyRound2 es
        reproducibility_latency := pyTrunc el
        reviewedness := pyRound2 vs
        reviewedness_latency := pyTrunc vl } from rfl] at hrec
  injection hrec with h
  subst h
  refine ⟨⟨pyRound2_nonneg (by linarith), pyRound2_le_one (by linarith)⟩,
    ⟨pyRound2_nonneg hrs0, pyRound2_le_one hrs1⟩,
    ⟨pyRound2_nonneg hbs0, pyRound2_le_one hbs1⟩,
    ⟨pyRound2_nonneg hps0, pyRound2_le_one hps1⟩,
    ⟨pyRound2_nonneg hls0, pyRound2_le_one hls1⟩,
    ⟨pyRound2_nonneg hz10, pyRound2_le_one hz11⟩,
    ⟨pyRound2_nonneg hz20, pyRound2_le_one hz21⟩,
    ⟨pyRound2_nonneg hz30, pyRound2_le_one hz31⟩,
    ⟨pyRound2_nonneg hz40, pyRound2_le_one hz41⟩,
    ⟨pyRound2_nonneg (by linarith), pyRound2_le_one (by linarith)⟩,
    ⟨pyRound2_nonneg hds0, pyRound2_le_one hds1⟩,
    ⟨pyRound2_nonneg hcs0, pyRound2_le_one hcs1⟩,
    ⟨pyRound2_nonneg hes0, pyRound2_le_one hes1⟩,
    ?_,
    pyTrunc_nonneg hnetE, pyTrunc_nonneg hrl, pyTrunc_nonneg hbl, pyTrunc_nonneg hpl,
    hll, pyTrunc_nonneg hzl, pyTrunc_nonneg (by linarith), pyTrunc_nonneg hdl,
    pyTrunc_nonneg hcl, pyTrunc_nonneg hel, pyTrunc_nonneg hvl⟩
  rcases hvs with hvs | ⟨hvs0, hvs1⟩
  · left
    simp only [hvs]
    exact pyRound2_neg_one
  · right
    exact ⟨pyRound2_nonneg hvs0, pyRound2_le_one hvs1⟩

/-- C5 witness: the all-zero probe outcome set satisfies every hypothesis
and yields a well-bounded record. -/
theorem C5_witness : recordWellBounded
    { net_score := pyRound2 ((0 + 0 + 0 + 0 + 0 + 0) / 6), net_score_latency := pyTrunc 0,
      ramp_up_time := pyRound2 0, ramp_up_time_latency := pyTrunc 0,
      bus_factor := pyRound2 0, bus_factor_latency := pyTrunc 0,
      performance_claims := pyRound2 0, performance_claims_latency := pyTrunc 0,
      license := pyRound2 0, license_latency := 0,
      size_raspberry_pi := pyRound2 0, size_jetson_nano := pyRound2 0,
      size_desktop_pc := pyRound2 0, size_aws_server := pyRound2 0,
      size_score_latency := pyTrunc 0,
      dataset_and_code_score := pyRound2 ((0 + 0) / 2),
      dataset_and_code_score_latency := pyTrunc ((0 + 0) / 2),
      dataset_quality := pyRound2 0, dataset_quality_latency := pyTrunc 0,
      code_quality := pyRound2 0, code_quality_latency := pyTrunc 0,
      reproducibility := pyRound2 0, reproducibility_latency := pyTrunc 0,
      reviewedness := pyRound2 0, reviewedness_latency := pyTrunc 0 } :=
  C5_record_bounds 0 0 0 0 0 0 0 0 0 0 0 0 0 0 0 0 0 0 0 0 0 0
    (by norm_num) _ rfl

/-- C5 counterexample.  When the reviewedness probe reports its
no-linked-repository sentinel -1.0, the record's reviewedness field is -1,
outside [0,1], refuting the claim that every scalar metric field of the
produced record lies in [0,1]. -/
theorem C5_counterexample :
    reviewednessOf (runAllMetrics
      { bus := some (0, 0), code := some (0, 0), data := some (0, 0),
        license := some (0, 0), ramp := some (0, 0), size := some (0, 0, 0, 0, 0),
        perf := some (0, 0), repro := some (0, 0), review := some (-1, 5) } 0)
      = some (-1) ∧ ¬(0 ≤ (-1 : ℚ)) := by
  constructor
  · have h : reviewednessOf (runAllMetrics
        { bus := some (0, 0), code := some (0, 0), data := some (0, 0),
          license := some (0, 0), ramp := some (0, 0), size := some (0, 0, 0, 0, 0),
          perf := some (0, 0), repro := some (0, 0), review := some (-1, 5) } 0)
        = some (pyRound2 (-1)) := rfl
    rw [h, pyRound2_neg_one]
  · norm_num

theorem log2_two : log2 2 = 1 :=
  div_self (ne_of_gt (Real.log_pos one_lt_two))

theorem busScore_formula (counts : List ℕ) (h2 : 2 ≤ counts.length)
    (hs : counts.sum ≠ 0) :
    busScore counts = busEntropy counts / log2 (counts.length : ℝ) := by
  have hpos : 0 < log2 (counts.length : ℝ) := by
    apply div_pos (Real.log_pos ?_) (Real.log_pos one_lt_two)
    exact_mod_cast Nat.lt_of_lt_of_le one_lt_two h2
  simp only [busScore]
  rw [if_neg (by push_neg; exact ⟨by omega, hs⟩), if_pos hpos]

theorem busScore_even_pair (k : ℕ) (hk : 0 < k) : busScore [k, k] = 1 := by
  have hsum : ([k, k] : List ℕ).sum = k + k := by simp
  have hk0 : ((k : ℕ) : ℝ) ≠ 0 := Nat.cast_ne_zero.mpr hk.ne'
  have hp : ((k : ℕ) : ℝ) / (((k + k : ℕ) : ℕ) : ℝ) = 1 / 2 := by
    push_cast
    rw [div_eq_iff (by intro hcon; apply hk0; linarith)]
    ring
  have hhalf : log2 (1 / 2) = -1 := by
    rw [log2, one_div, Real.log_inv]
    field_simp
  have hsumr : ((([k, k] : List ℕ).sum : ℕ) : ℝ) = ((k + k : ℕ) : ℝ) := by rw [hsum]
  have hent : busEntropy [k, k] = 1 := by
    have hdef : busEntropy [k, k]
        = -((((k : ℕ) : ℝ) / ((([k, k] : List ℕ).sum : ℕ) : ℝ))
              * log2 (((k : ℕ) : ℝ) / ((([k, k] : List ℕ).sum : ℕ) : ℝ))
            + ((((k : ℕ) : ℝ) / ((([k, k] : List ℕ).sum : ℕ) : ℝ))
              * log2 (((k : ℕ) : ℝ) / ((([k, k] : List ℕ).sum : ℕ) : ℝ)) + 0)) := rfl
    rw [hdef, hsumr, hp, hhalf]
    ring
  rw [busScore_formula [k, k] (by simp) (by simp; omega), hent]
  have hl : ((([k, k] : List ℕ).length : ℕ) : ℝ) = 2 := by simp
  rw [hl, log2_two, div_one]

/-- C4 (confirmed).  BusMetric's score: 0.0 whenever there are at most one
distinct contributor or no contributions; otherwise the Shannon entropy of
the contribution distribution normalized by log2(N); in particular two
contributors with equal counts score exactly 1.0 and a single contributor
(or an empty histogram) scores 0.0. -/
theorem C4_bus_entropy_score :
    (∀ counts : List ℕ, counts.length ≤ 1 ∨ counts.sum = 0 → busScore counts = 0) ∧
    (∀ counts : List ℕ, 2 ≤ counts.length → counts.sum ≠ 0 →
      busScore counts = busEntropy counts / log2 (counts.length : ℝ)) ∧
    (∀ k : ℕ, 0 < k → busScore [k, k] = 1) ∧
    (∀ k : ℕ, busScore [k] = 0) := by
  refine ⟨fun c h => ?_, busScore_formula, busScore_even_pair, fun k => ?_⟩
  · simp only [busScore]
    rw [if_pos h]
  · simp [busScore]

/-- C4 witness: the testable concrete cases — a 50/50 histogram scores 1.0,
a single contributor 0.0, an empty history 0.0. -/
theorem C4_witness : busScore [5, 5] = 1 ∧ busScore [7] = 0 ∧ busScore [] = 0 :=
  ⟨C4_bus_entropy_score.2.2.1 5 (by norm_num),
   C4_bus_entropy_score.2.2.2 7,
   C4_bus_entropy_score.1 [] (Or.inl (by norm_num))⟩

theorem clampR_mono {x y : ℝ} (h : x ≤ y) : clampR x ≤ clampR y :=
  max_le_max le_rfl (min_le_min h le_rfl)

/-- C6 (confirmed).  The ramp score clamp((ln d - 5)/10) is monotone
non-decreasing in the download count; and for downloads ≤ 0 the probe
returns its None result (no score) rather than a score, while for positive
downloads it returns the clamped log score with the measured latency. -/
theorem C6_ramp_monotone :
    (∀ d1 d2 : ℤ, 0 < d1 → d1 ≤ d2 → rampScoreOf d1 ≤ rampScoreOf d2) ∧
    (∀ (u : String) (d : ℤ) (lat : ℚ), d ≤ 0 →
      rampCompute (some u) (.ok d lat) = .retNone) ∧
    (∀ (u : String) (d : ℤ) (lat : ℚ), 0 < d →
      rampCompute (some u) (.ok d lat) = .ok (rampScoreOf d) lat) := by
  refine ⟨fun d1 d2 h1 h12 => ?_, fun u d lat hd => ?_, fun u d lat hd => ?_⟩
  · unfold rampScoreOf
    apply clampR_mono
    have hlog : Real.log (d1 : ℝ) ≤ Real.log (d2 : ℝ) := by
      rw [Real.log_le_log_iff (by exact_mod_cast h1)
        (by exact_mod_cast lt_of_lt_of_le h1 h12)]
      exact_mod_cast h12
    linarith
  · simp only [rampCompute]
    rw [if_pos hd]
  · simp only [rampCompute]
    rw [if_neg (by omega)]

/-- C6 witness: monotone step from 1 to 2 downloads, None at 0 downloads,
and the score formula at 1000 downloads. -/
theorem C6_witness :
    rampScoreOf 1 ≤ rampScoreOf 2 ∧
    rampCompute (some "https://huggingface.co/org/model") (.ok 0 1) = .retNone ∧
    rampCompute (some "https://huggingface.co/org/model") (.ok 1000 50)
      = .ok (rampScoreOf 1000) 50 :=
  ⟨C6_ramp_monotone.1 1 2 one_pos (by norm_num),
   C6_ramp_monotone.2.1 _ 0 1 le_rfl,
   C6_ramp_monotone.2.2 _ 1000 50 (by norm_num)⟩

theorem clampR_nonneg (x : ℝ) : 0 ≤ clampR x := le_max_left 0 _

theorem clampR_le_one (x : ℝ) : clampR x ≤ 1 :=
  max_le zero_le_one (min_le_right x 1)

theorem clampR_lt_one {x : ℝ} (h : x < 1) : clampR x < 1 :=
  max_lt one_pos (lt_of_le_of_lt (min_le_left x 1) h)

theorem baseScore_nonneg (o : Option Prec) : 0 ≤ baseScore o := by
  cases o with
  | none => norm_num [baseScore]
  | some p => cases p <;> norm_num [baseScore]

theorem baseScore_le_one (o : Option Prec) : baseScore o ≤ 1 := by
  cases o with
  | none => norm_num [baseScore]
  | some p => cases p <;> norm_num [baseScore]

theorem precBytes_ge_half (p : Prec) : 1/2 ≤ precBytes p := by
  cases p <;> norm_num [precBytes]

theorem precBytes_pos (p : Prec) : 0 < precBytes p := by
  cases p <;> norm_num [precBytes]

theorem throughputPenalty_pos (p : ℝ) (c : ℚ) (hp : 0 ≤ p) :
    0 < throughputPenalty p c := by
  unfold throughputPenalty
  have hm : (0 : ℝ) < max 1 (c : ℝ) := lt_of_lt_of_le one_pos (le_max_left 1 _)
  have hr : 0 ≤ (p / max 1 (c : ℝ)) ^ (1.2 : ℝ) :=
    Real.rpow_nonneg (div_nonneg hp hm.le) _
  exact div_pos one_pos (by linarith)

theorem throughputPenalty_lt_one (c : ℚ) {p : ℝ} (hp : 0 < p) :
    throughputPenalty p c < 1 := by
  unfold throughputPenalty
  have hm : (0 : ℝ) < max 1 (c : ℝ) := lt_of_lt_of_le one_pos (le_max_left 1 _)
  have hr : 0 < (p / max 1 (c : ℝ)) ^ (1.2 : ℝ) :=
    Real.rpow_pos_of_pos (div_pos hp hm) _
  rw [div_lt_one (by linarith)]
  linarith

theorem throughputPenalty_antitone (c : ℚ) {p1 p2 : ℝ} (hp1 : 0 ≤ p1) (h12 : p1 ≤ p2) :
    throughputPenalty p2 c ≤ throughputPenalty p1 c := by
  unfold throughputPenalty
  have hm : (0 : ℝ) < max 1 (c : ℝ) := lt_of_lt_of_le one_pos (le_max_left 1 _)
  have hdiv : p1 / max 1 (c : ℝ) ≤ p2 / max 1 (c : ℝ) := (div_le_div_right hm).mpr h12
  have hr : (p1 / max 1 (c : ℝ)) ^ (1.2 : ℝ) ≤ (p2 / max 1 (c : ℝ)) ^ (1.2 : ℝ) :=
    Real.rpow_le_rpow (div_nonneg hp1 hm.le) hdiv (by norm_num)
  have hr1 : 0 ≤ (p1 / max 1 (c : ℝ)) ^ (1.2 : ℝ) :=
    Real.rpow_nonneg (div_nonneg hp1 hm.le) _
  exact one_div_le_one_div_of_le (by linarith) (by linarith)

theorem memWithOverhead_mono {p1 p2 : ℝ} (h : p1 ≤ p2) (prec : Prec) {ov : ℚ}
    (hov : 0 ≤ ov) : memWithOverhead p1 prec ov ≤ memWithOverhead p2 prec ov := by
  unfold memWithOverhead
  have hb : (0 : ℝ) ≤ (precBytes prec : ℝ) := by exact_mod_cast (precBytes_pos prec).le
  have hovr : (0 : ℝ) ≤ (ov : ℝ) := by exact_mod_cast hov
  exact mul_le_mul_of_nonneg_right (mul_le_mul_of_nonneg_right h hb) hovr

theorem findBase_antitone (l : List Prec) (f1 f2 : Prec → Bool)
    (himp : ∀ x, f2 x = true → f1 x = true)
    (hpw : l.Pairwise (fun a b => baseScore (some b) ≤ baseScore (some a))) :
    baseScore (l.find? f2) ≤ baseScore (l.find? f1) := by
  induction l with
  | nil => simp [List.find?]
  | cons hd tl ih =>
    rw [List.pairwise_cons] at hpw
    by_cases h2 : f2 hd = true
    · rw [List.find?_cons_of_pos _ h2, List.find?_cons_of_pos _ (himp hd h2)]
    · rw [List.find?_cons_of_neg _ (by simp [h2])]
      by_cases h1 : f1 hd = true
      · rw [List.find?_cons_of_pos _ h1]
        cases hf : tl.find? f2 with
        | none =>
          have hz : baseScore (none : Option Prec) = 0 := rfl
          rw [hz]
          exact baseScore_nonneg (some hd)
        | some x => exact hpw.1 x (List.mem_of_find?_eq_some hf)
      · rw [List.find?_cons_of_neg _ (by simp [h1])]
        exact ih hpw.2

theorem pickBase_antitone (cap : ℚ) (gpu : Bool) {ov : ℚ} (hov : 0 ≤ ov)
    {p1 p2 : ℝ} (h12 : p1 ≤ p2) :
    baseScore (pickBestPrecision p2 cap gpu ov)
      ≤ baseScore (pickBestPrecision p1 cap gpu ov) := by
  apply findBase_antitone
  · intro x hx
    simp only [decide_eq_true_eq] at hx ⊢
    exact le_trans (memWithOverhead_mono h12 x hov) hx
  · cases gpu <;> norm_num [precOrder, List.pairwise_cons, baseScore]

theorem deviceScore_antitone (prof : DeviceProfile) {ov : ℚ} (hov : 0 ≤ ov)
    {p1 p2 : ℝ} (hp1 : 0 ≤ p1) (h12 : p1 ≤ p2) :
    deviceScore p2 prof ov ≤ deviceScore p1 prof ov := by
  unfold deviceScore
  apply clampR_mono
  have hb2 : (baseScore (pickBestPrecision p2 prof.memBytes prof.supportsGpu ov) : ℝ)
      ≤ (baseScore (pickBestPrecision p1 prof.memBytes prof.supportsGpu ov) : ℝ) := by
    exact_mod_cast pickBase_antitone prof.memBytes prof.supportsGpu hov h12
  exact mul_le_mul hb2 (throughputPenalty_antitone _ hp1 h12)
    (throughputPenalty_pos _ _ (hp1.trans h12)).le
    (by exact_mod_cast baseScore_nonneg _)

theorem deviceScore_zero_of_large (prof : DeviceProfile) {p : ℝ} (hp : 0 ≤ p)
    (h : (prof.memBytes : ℝ) < p * (13/20)) :
    deviceScore p prof overheadDefault = 0 := by
  have hnone : pickBestPrecision p prof.memBytes prof.supportsGpu overheadDefault = none := by
    rw [pickBestPrecision, List.find?_eq_none]
    intro x _
    simp only [decide_eq_true_eq, not_le]
    have hB : (1/2 : ℝ) ≤ (precBytes x : ℝ) := by
      have h' := precBytes_ge_half x
      have h2 : (((1 : ℚ)/2 : ℚ) : ℝ) ≤ ((precBytes x : ℚ) : ℝ) := by exact_mod_cast h'
      simpa using h2
    have hov : ((overheadDefault : ℚ) : ℝ) = 13/10 := by norm_num [overheadDefault]
    unfold memWithOverhead
    rw [hov]
    nlinarith
  unfold deviceScore
  rw [hnone]
  have hz : ((baseScore (none : Option Prec) : ℚ) : ℝ) = 0 := by norm_num [baseScore]
  rw [hz, zero_mul]
  unfold clampR
  rw [min_eq_left (by norm_num), max_eq_left (le_refl 0)]

theorem deviceScore_lt_one (prof : DeviceProfile) (ov : ℚ) {p : ℝ} (hp : 0 < p) :
    deviceScore p prof ov < 1 := by
  unfold deviceScore
  apply clampR_lt_one
  have hpen1 : throughputPenalty p prof.comfortParams < 1 :=
    throughputPenalty_lt_one _ hp
  have hpen0 : 0 < throughputPenalty p prof.comfortParams :=
    throughputPenalty_pos _ _ hp.le
  have hb1 : ((baseScore (pickBestPrecision p prof.memBytes prof.supportsGpu ov) : ℚ) : ℝ)
      ≤ 1 := by exact_mod_cast baseScore_le_one _
  calc ((baseScore (pickBestPrecision p prof.memBytes prof.supportsGpu ov) : ℚ) : ℝ)
        * throughputPenalty p prof.comfortParams
      ≤ 1 * throughputPenalty p prof.comfortParams :=
        mul_le_mul_of_nonneg_right hb1 hpen0.le
    _ = throughputPenalty p prof.comfortParams := one_mul _
    _ < 1 := hpen1

theorem deviceScore_tendsto_zero (prof : DeviceProfile) :
    Filter.Tendsto (fun p : ℝ => deviceScore p prof overheadDefault)
      Filter.atTop (nhds 0) := by
  have hev : (fun p : ℝ => deviceScore p prof overheadDefault)
      =ᶠ[Filter.atTop] (fun _ => (0 : ℝ)) := by
    filter_upwards [Filter.eventually_ge_atTop
      (max 0 ((prof.memBytes : ℝ) * (20/13) + 1))] with p hp
    have hp0 : 0 ≤ p := le_trans (le_max_left _ _) hp
    have hbig : (prof.memBytes : ℝ) < p * (13/20) := by
      have h1 : (prof.memBytes : ℝ) * (20/13) + 1 ≤ p := le_trans (le_max_right _ _) hp
      nlinarith
    exact deviceScore_zero_of_large prof hp0 hbig
  exact Filter.Tendsto.congr' hev.symm tendsto_const_nhds

/-- C7 (corrected).  Every device's size-compatibility score is monotone
non-increasing in the parameter count, is exactly 0 once the parameter
count exceeds even the 4-bit capacity (hence tends to 0 at infinity) — but
no positive parameter count scores 1.0 on any profile: the throughput
penalty 1/(1+(params/comfort)^1.2) is strictly below 1 whenever params > 0,
so a small model on an accelerator-enabled, high-memory profile scores
strictly less than 1.0, approaching 1.0 only in the limit params → 0. -/
theorem C7_size_decay :
    (∀ (prof : DeviceProfile) (p1 p2 : ℝ), 0 ≤ p1 → p1 ≤ p2 →
      deviceScore p2 prof overheadDefault ≤ deviceScore p1 prof overheadDefault) ∧
    (∀ (prof : DeviceProfile) (p : ℝ), 0 ≤ p → (prof.memBytes : ℝ) < p * (13/20) →
      deviceScore p prof overheadDefault = 0) ∧
    (∀ prof : DeviceProfile,
      Filter.Tendsto (fun p : ℝ => deviceScore p prof overheadDefault)
        Filter.atTop (nhds 0)) ∧
    (∀ (prof : DeviceProfile) (p : ℝ), 0 < p →
      deviceScore p prof overheadDefault < 1) :=
  ⟨fun prof p1 p2 hp1 h12 => deviceScore_antitone prof (by norm_num [overheadDefault]) hp1 h12,
   fun prof p hp h => deviceScore_zero_of_large prof hp h,
   deviceScore_tendsto_zero,
   fun prof p hp => deviceScore_lt_one prof overheadDefault hp⟩

/-- C7 counterexample.  The smallest positive model (a single parameter) on
the accelerator-enabled 16 GB aws_server profile — comfortably within every
memory budget — still scores strictly less than the claimed 1.0. -/
theorem C7_counterexample : deviceScore 1 awsServer overheadDefault < 1 :=
  deviceScore_lt_one awsServer overheadDefault one_pos

/-- C7 witness: monotone step on raspberry_pi, exact zero far beyond
aws_server's capacity, and the strict sub-1.0 bound on desktop_pc. -/
theorem C7_witness :
    deviceScore 2 raspberryPi overheadDefault ≤ deviceScore 1 raspberryPi overheadDefault ∧
    deviceScore 30000000000 awsServer overheadDefault = 0 ∧
    deviceScore 1 desktopPc overheadDefault < 1 :=
  ⟨C7_size_decay.1 raspberryPi 1 2 zero_le_one one_le_two,
   C7_size_decay.2.1 awsServer 30000000000 (by norm_num) (by norm_num [awsServer]),
   C7_size_decay.2.2.2 desktopPc 1 one_pos⟩

end Spec2Proof
